import Mathlib

/-!
Verification of the LLM-based product-page scraper core
(`llmextract.py` and `batch_extract.py`).

The two external capabilities — the crawler (`crawler.arun`, which renders a
page and runs the LLM extraction strategy) and the JSON decoder
(`json.loads`) — are opaque to the repository's code, so they are modelled as
function parameters.  A Python exception escaping a call is modelled by
`Except String`, the `String` being `str(e)`.  Wall-clock timing
(`time.time`, `time.sleep`) and console printing only affect I/O, except that
the *evaluation of the f-string arguments* inside `batch_extract.py`'s print
calls can itself raise (`result["data"].get(...)` on a non-dict), which is
modelled explicitly.
-/

namespace ProductScraper

/-- JSON values as produced by `json.loads`.  Numbers are modelled as
integers; no claim depends on numeric values. -/
inductive Json where
  | null
  | bool (b : Bool)
  | num (n : Int)
  | str (s : String)
  | arr (elems : List Json)
  | obj (fields : List (String × Json))

/-- The fields of the crawler's result object that `extract_product_data`
reads: `result.success`, `result.extracted_content`, `result.error_message`. -/
structure CrawlResult where
  success : Bool
  extracted_content : String
  error_message : String

/-- The result dict built by `extract_product_data` / `extract_details`.
Each Python dict key is an `Option` field so that the presence or absence of
a key in the returned dict is part of the value (`none` = key absent). -/
structure Outcome where
  success : Bool
  data : Option Json
  error : Option String
  url : Option String

/-- Lines 126–142 of `llmextract.py`: the code after `json.loads` succeeds —
list-vs-dict normalization and construction of the returned dict.  Note that
the empty-list branch returns a dict with no `"url"` key, and that any
non-list value (dict or otherwise) is used directly as `product_data`. -/
def normalize_and_wrap (data : Json) (url : String) : Outcome :=
  match data with
  | .arr [] => { success := false, data := none
                 error := some "No products found in extracted data", url := none }
  | .arr (x :: _) => { success := true, data := some x, error := none, url := some url }
  | d => { success := true, data := some d, error := none, url := some url }

/-- `extract_product_data(url, ...)` from `llmextract.py`.
`crawl` models `crawler.arun(url=url, config=crawl_config)`; an
`Except.error e` models an exception escaping the call, caught by the
function's `except Exception as e` handler.  `loads` models `json.loads`;
its `Except.error e` (a `JSONDecodeError` with message `str(e)`) is caught
by the same handler. -/
def extract_product_data (loads : String → Except String Json)
    (crawl : String → Except String CrawlResult) (url : String) : Outcome :=
  match crawl url with
  | .error e => { success := false, data := none, error := some e, url := some url }
  | .ok result =>
    if result.success then
      match loads result.extracted_content with
      | .error e => { success := false, data := none, error := some e, url := some url }
      | .ok data => normalize_and_wrap data url
    else
      { success := false, data := none, error := some result.error_message, url := some url }

/-- A crawl capability that always succeeds with the given extracted
content (used to instantiate theorems at concrete inputs). -/
def crawlOk (content : String) : String → Except String CrawlResult :=
  fun _ => .ok { success := true, extracted_content := content, error_message := "" }

/-- `True` for JSON values that are neither objects nor arrays
(string, number, boolean, null). -/
def Json.is_scalar : Json → Bool
  | .null | .bool _ | .num _ | .str _ => true
  | .arr _ | .obj _ => false

/-! ### Batch orchestrator (`batch_extract.py`) -/

/-- The summary block of the dict built by `extract_details`.  The
`total_processing_time` entry is wall-clock time (external I/O) and is not
modelled. -/
structure Summary where
  success_rate : ℚ

/-- The dict returned by `extract_details`. -/
structure BatchResults where
  total_urls : Nat
  successful_extractions : Nat
  failed_extractions : Nat
  results : List Outcome
  summary : Summary

/-- The f-string argument `result["data"].get("product", "Unknown Product")`
of the success-branch print in `extract_details`.  `result["data"]` raises
`KeyError` when the key is absent, and `.get` raises `AttributeError` unless
the value is a dict. -/
def success_print_arg (result : Outcome) : Except String Json :=
  match result.data with
  | none => .error "KeyError: data"
  | some (.obj fields) => .ok ((List.lookup "product" fields).getD (.str "Unknown Product"))
  | some _ => .error "AttributeError: object has no attribute get"

/-- The f-string argument `result["error"]` of the failure-branch print in
`extract_details`: raises `KeyError` when the key is absent. -/
def failed_print_arg (result : Outcome) : Except String Json :=
  match result.error with
  | none => .error "KeyError: error"
  | some e => .ok (.str e)

/-- The `error_result` dict built by the `except` handler of the batch loop. -/
def unexpected_outcome (e url : String) : Outcome :=
  { success := false, data := none, error := some ("Unexpected error: " ++ e), url := some url }

/-- One iteration of the `for idx, url in enumerate(urls, 1)` loop of
`extract_details`: the `try` block plus its `except` handler, as the triple
(increment of `successful_extractions`, increment of `failed_extractions`,
the outcome appended to `results["results"]`).  `extract` models
`extract_product_sync`; `Except.error e` models a fault escaping that call.
Python evaluation order is kept: in the success branch the counter is
incremented *before* the print whose argument can raise, so a raising print
also runs the `except` handler (which increments the failed counter and
appends `error_result` instead of `result`). -/
def batch_step (extract : String → Except String Outcome) (url : String) :
    Nat × Nat × Outcome :=
  match extract url with
  | .error e => (0, 1, unexpected_outcome e url)
  | .ok result =>
    if result.success then
      match success_print_arg result with
      | .error e => (1, 1, unexpected_outcome e url)
      | .ok _ => (1, 0, result)
    else
      match failed_print_arg result with
      | .error e => (0, 2, unexpected_outcome e url)
      | .ok _ => (0, 1, result)

/-- The single outcome the batch loop appends to `results["results"]` for a
given URL. -/
def process_one (extract : String → Except String Outcome) (url : String) : Outcome :=
  (batch_step extract url).2.2

/-- The `for` loop of `extract_details`, threading the mutable state it
updates: `successful_extractions`, `failed_extractions`, `results["results"]`. -/
def batch_fold (extract : String → Except String Outcome) :
    Nat × Nat × List Outcome → List String → Nat × Nat × List Outcome
  | acc, [] => acc
  | acc, url :: rest =>
      let d := batch_step extract url
      batch_fold extract (acc.1 + d.1, acc.2.1 + d.2.1, acc.2.2 ++ [d.2.2]) rest

/-- `extract_details(urls, ...)` from `batch_extract.py`.  The pacing
delay (`time.sleep`) and the timing fields only affect wall-clock time and
are not modelled.  `success_rate` mirrors
`successful / total_urls * 100 if total_urls > 0 else 0` over `ℚ`. -/
def extract_details (extract : String → Except String Outcome)
    (urls : List String) : BatchResults :=
  let final := batch_fold extract ((0 : Nat), (0 : Nat), ([] : List Outcome)) urls
  { total_urls := urls.length
    successful_extractions := final.1
    failed_extractions := final.2.1
    results := final.2.2
    summary :=
      { success_rate :=
          if urls.length > 0 then (final.1 : ℚ) / (urls.length : ℚ) * 100 else 0 } }

/-! ### The `Product` pydantic model (`llmextract.py`, lines 8–51)

Four fields are declared `Field(...)` — required, with no default:
`product`, `brand`, `product_description`, `price`.  Every other field has an
explicit default (`""`, `False`, or an empty list). -/

structure Product where
  product : String
  brand : String
  product_description : String
  everything_you_need_to_know : String := ""
  why_we_love_it : String := ""
  price : String
  website : String := ""
  delivery_timeline : String := ""
  image_links : List String := []
  age_kids : String := ""
  gender : String := ""
  price_bracket : String := ""
  cities : String := ""
  occasion : String := ""
  style_tags : String := ""
  personas : String := ""
  valentines : Bool := false
  baby_shower : Bool := false
  anniversaries_weddings : Bool := false
  birthdays : Bool := false
  house_warmings : Bool := false
  festivals : Bool := false
  fitness_sports_enthusiast : Bool := false
  aesthete : Bool := false
  minimalist_functional : Bool := false
  maximalist : Bool := false
  fashionable : Bool := false
  foodie : Bool := false
  wellness_seeker : Bool := false
  new_parent : Bool := false
  teenagers : Bool := false
  working_professionals : Bool := false
  parents : Bool := false
  bride_groom_to_be : Bool := false

/-- Pydantic validation of a required string field: absent key is a
`Field required` validation error. -/
def fieldStrReq (raw : List (String × Json)) (key : String) : Except String String :=
  match List.lookup key raw with
  | some (.str s) => .ok s
  | some _ => .error ("Input should be a valid string: " ++ key)
  | none => .error ("Field required: " ++ key)

/-- Pydantic validation of an optional string field: absent key resolves to
the declared default. -/
def fieldStrOpt (raw : List (String × Json)) (key dflt : String) : Except String String :=
  match List.lookup key raw with
  | some (.str s) => .ok s
  | some _ => .error ("Input should be a valid string: " ++ key)
  | none => .ok dflt

/-- Pydantic validation of an optional boolean field: absent key resolves to
the declared default (`False` for every boolean flag of `Product`). -/
def fieldBoolOpt (raw : List (String × Json)) (key : String) (dflt : Bool) :
    Except String Bool :=
  match List.lookup key raw with
  | some (.bool b) => .ok b
  | some _ => .error ("Input should be a valid boolean: " ++ key)
  | none => .ok dflt

/-- Coerce a list of JSON values to a list of strings, failing on a
non-string element. -/
def strElems (key : String) : List Json → Except String (List String)
  | [] => .ok []
  | .str s :: rest => do
      let tail ← strElems key rest
      .ok (s :: tail)
  | _ :: _ => .error ("Input should be a valid string: " ++ key)

/-- Pydantic validation of the `image_links` field
(`List[str]`, `default_factory=list`): absent key resolves to `[]`. -/
def fieldStrListOpt (raw : List (String × Json)) (key : String) :
    Except String (List String) :=
  match List.lookup key raw with
  | some (.arr xs) => strElems key xs
  | some _ => .error ("Input should be a valid list: " ++ key)
  | none => .ok []

/-- `Product.model_validate(raw)`: populate a `Product` from a raw key-value
mapping, field by field in declaration order.  Unknown keys of `raw` are
ignored; a missing key resolves to the field's default when the field has
one and is a validation error for the four required fields. -/
def Product.model_validate (raw : List (String × Json)) : Except String Product := do
  let product ← fieldStrReq raw "product"
  let brand ← fieldStrReq raw "brand"
  let product_description ← fieldStrReq raw "product_description"
  let everything_you_need_to_know ← fieldStrOpt raw "everything_you_need_to_know" ""
  let why_we_love_it ← fieldStrOpt raw "why_we_love_it" ""
  let price ← fieldStrReq raw "price"
  let website ← fieldStrOpt raw "website" ""
  let delivery_timeline ← fieldStrOpt raw "delivery_timeline" ""
  let image_links ← fieldStrListOpt raw "image_links"
  let age_kids ← fieldStrOpt raw "age_kids" ""
  let gender ← fieldStrOpt raw "gender" ""
  let price_bracket ← fieldStrOpt raw "price_bracket" ""
  let cities ← fieldStrOpt raw "cities" ""
  let occasion ← fieldStrOpt raw "occasion" ""
  let style_tags ← fieldStrOpt raw "style_tags" ""
  let personas ← fieldStrOpt raw "personas" ""
  let valentines ← fieldBoolOpt raw "valentines" false
  let baby_shower ← fieldBoolOpt raw "baby_shower" false
  let anniversaries_weddings ← fieldBoolOpt raw "anniversaries_weddings" false
  let birthdays ← fieldBoolOpt raw "birthdays" false
  let house_warmings ← fieldBoolOpt raw "house_warmings" false
  let festivals ← fieldBoolOpt raw "festivals" false
  let fitness_sports_enthusiast ← fieldBoolOpt raw "fitness_sports_enthusiast" false
  let aesthete ← fieldBoolOpt raw "aesthete" false
  let minimalist_functional ← fieldBoolOpt raw "minimalist_functional" false
  let maximalist ← fieldBoolOpt raw "maximalist" false
  let fashionable ← fieldBoolOpt raw "fashionable" false
  let foodie ← fieldBoolOpt raw "foodie" false
  let wellness_seeker ← fieldBoolOpt raw "wellness_seeker" false
  let new_parent ← fieldBoolOpt raw "new_parent" false
  let teenagers ← fieldBoolOpt raw "teenagers" false
  let working_professionals ← fieldBoolOpt raw "working_professionals" false
  let parents ← fieldBoolOpt raw "parents" false
  let bride_groom_to_be ← fieldBoolOpt raw "bride_groom_to_be" false
  .ok { product, brand, product_description, everything_you_need_to_know,
        why_we_love_it, price, website, delivery_timeline, image_links,
        age_kids, gender, price_bracket, cities, occasion, style_tags,
        personas, valentines, baby_shower, anniversaries_weddings, birthdays,
        house_warmings, festivals, fitness_sports_enthusiast, aesthete,
        minimalist_functional, maximalist, fashionable, foodie,
        wellness_seeker, new_parent, teenagers, working_professionals,
        parents, bride_groom_to_be }

/-! ### Shared lemmas about the batch loop -/

/-- Closed form of the batch loop: starting from accumulator `acc`, the two
counters grow by the per-URL increments and exactly one outcome is appended
per URL, in input order. -/
lemma batch_fold_eq (extract : String → Except String Outcome) (urls : List String) :
    ∀ acc : Nat × Nat × List Outcome,
      batch_fold extract acc urls =
        (acc.1 + (urls.map fun u => (batch_step extract u).1).sum,
         acc.2.1 + (urls.map fun u => (batch_step extract u).2.1).sum,
         acc.2.2 ++ urls.map (process_one extract)) := by
  induction urls with
  | nil => intro acc; simp [batch_fold]
  | cons u rest ih =>
      intro acc
      simp [batch_fold, ih, process_one, Nat.add_assoc]

/-- The results sequence of a batch is the per-URL outcome map. -/
lemma extract_details_results (extract : String → Except String Outcome)
    (urls : List String) :
    (extract_details extract urls).results = urls.map (process_one extract) := by
  simp [extract_details, batch_fold_eq]

/-! ### Claim theorems -/

/-- C3: For every URL list (duplicates included), the report returned by
`extract_details` contains exactly one outcome per input URL, and the
results sequence is the per-URL outcome map of the input list — same length,
same order, one entry per occurrence. -/
theorem batch_one_outcome_per_url (extract : String → Except String Outcome)
    (urls : List String) :
    (extract_details extract urls).results = urls.map (process_one extract) ∧
    (extract_details extract urls).results.length = urls.length := by
  refine ⟨extract_details_results extract urls, ?_⟩
  rw [extract_details_results]
  exact List.length_map urls (process_one extract)

/-- C2: A fault escaping the single-URL extractor call is caught by the batch
loop and converted into a failed outcome whose error is
`"Unexpected error: "` plus the fault's message; the loop still produces one
outcome for every URL of the batch (it never aborts). -/
theorem batch_isolates_faults (extract : String → Except String Outcome)
    (urls : List String) (url e : String) (h : extract url = .error e) :
    (extract_details extract urls).results = urls.map (process_one extract) ∧
    process_one extract url =
      { success := false, data := none,
        error := some ("Unexpected error: " ++ e), url := some url } := by
  refine ⟨extract_details_results extract urls, ?_⟩
  simp [process_one, batch_step, h, unexpected_outcome]

/-- Witness for C2 at a concrete faulting extractor over a two-URL batch. -/
theorem batch_isolates_faults_witness :
    (extract_details (fun _ => Except.error "boom") ["u", "v"]).results
        = ["u", "v"].map (process_one (fun _ => Except.error "boom")) ∧
    process_one (fun _ => Except.error "boom") "u" =
      { success := false, data := none,
        error := some ("Unexpected error: " ++ "boom"), url := some "u" } :=
  batch_isolates_faults (fun _ => Except.error "boom") ["u", "v"] "u" "boom" rfl

/-- C5: On the empty URL list `extract_details` returns all-zero counts, an
empty results list and success rate `0`; the `total_urls > 0` guard means the
rate is computed without any division by zero. -/
theorem empty_batch_report (extract : String → Except String Outcome) :
    extract_details extract [] =
      { total_urls := 0, successful_extractions := 0, failed_extractions := 0,
        results := [], summary := { success_rate := 0 } } := rfl

/-- An extractor built from the real pipeline whose success outcome carries
non-dict data: the crawler succeeds and the extracted content is the JSON
document `"x"` (a bare string), so `extract_product_data` returns
`{"success": True, "data": "x", "url": url}`. -/
def scalar_data_extract : String → Except String Outcome :=
  fun u => .ok (extract_product_data (fun _ => .ok (Json.str "x")) (crawlOk "\"x\"") u)

/-- C4 (code bug): at the failing input — one URL whose success outcome has
non-dict `data` — the batch loop first increments `successful_extractions`,
then the success-branch print evaluates `result["data"].get(...)`, which
raises `AttributeError` on a non-dict, and the `except` handler increments
`failed_extractions` as well, so `1 + 1 ≠ 1 = total_urls` and the claimed
invariant `successful + failed = total` fails. -/
theorem batch_counts_bug :
    (extract_details scalar_data_extract ["u"]).successful_extractions = 1 ∧
    (extract_details scalar_data_extract ["u"]).failed_extractions = 1 ∧
    (extract_details scalar_data_extract ["u"]).total_urls = 1 ∧
    (extract_details scalar_data_extract ["u"]).successful_extractions
        + (extract_details scalar_data_extract ["u"]).failed_extractions
      ≠ (extract_details scalar_data_extract ["u"]).total_urls := by
  refine ⟨rfl, rfl, rfl, ?_⟩
  decide

/-- C6 (counterexample): when the parsed extraction output is the empty list,
the outcome dict returned by `extract_product_data` has *no* `url` key, and
its error text is the capitalized `"No products found in extracted data"`,
so the claimed outcome `{success:false, error:"no products found in
extracted data", url}` is not what the code returns. -/
theorem empty_list_outcome_cex :
    (extract_product_data (fun _ => Except.ok (Json.arr []))
        (crawlOk "[]") "http://u").url = none ∧
    (extract_product_data (fun _ => Except.ok (Json.arr []))
        (crawlOk "[]") "http://u").error
      ≠ some "no products found in extracted data" := by
  exact ⟨rfl, by decide⟩

/-- C6 (amended): when the crawl succeeds and the extracted content parses to
an empty JSON list, `extract_product_data` returns
`{success: false, error: "No products found in extracted data"}` — a dict
that carries no `url` key — and no fault is raised. -/
theorem empty_list_outcome (loads : String → Except String Json)
    (crawl : String → Except String CrawlResult) (url : String) (r : CrawlResult)
    (h1 : crawl url = .ok r) (h2 : r.success = true)
    (h3 : loads r.extracted_content = .ok (Json.arr [])) :
    extract_product_data loads crawl url =
      { success := false, data := none,
        error := some "No products found in extracted data", url := none } := by
  simp [extract_product_data, h1, h2, h3, normalize_and_wrap]

/-- Witness for C6 at a concrete crawl result and parse. -/
theorem empty_list_outcome_witness :
    extract_product_data (fun _ => Except.ok (Json.arr [])) (crawlOk "[]") "u" =
      { success := false, data := none,
        error := some "No products found in extracted data", url := none } :=
  empty_list_outcome (fun _ => Except.ok (Json.arr [])) (crawlOk "[]") "u"
    { success := true, extracted_content := "[]", error_message := "" } rfl rfl rfl

/-- C7 (counterexample): when the parsed extraction output is the JSON string
`"hello"` — valid JSON, neither an object nor a list — `extract_product_data`
returns a *success* outcome, not the failure the claim requires. -/
theorem scalar_json_success_cex :
    (extract_product_data (fun _ => Except.ok (Json.str "hello"))
        (crawlOk "\"hello\"") "u").success = true := rfl

/-- C7 (amended): a parsed value that is neither an object nor a list
(string, number, boolean or null) falls into the non-list branch and is used
as the product data directly: the outcome is
`{success: true, data: <value>, url}`.  The code has no shape check at all. -/
theorem scalar_json_success (loads : String → Except String Json)
    (crawl : String → Except String CrawlResult) (url : String) (r : CrawlResult)
    (j : Json) (h1 : crawl url = .ok r) (h2 : r.success = true)
    (h3 : loads r.extracted_content = .ok j) (h4 : j.is_scalar = true) :
    extract_product_data loads crawl url =
      { success := true, data := some j, error := none, url := some url } := by
  cases j <;>
    simp_all [extract_product_data, normalize_and_wrap, Json.is_scalar]

/-- Witness for C7 at the JSON string `"hello"`. -/
theorem scalar_json_success_witness :
    extract_product_data (fun _ => Except.ok (Json.str "hello"))
        (crawlOk "\"hello\"") "u" =
      { success := true, data := some (Json.str "hello"), error := none,
        url := some "u" } :=
  scalar_json_success (fun _ => Except.ok (Json.str "hello")) (crawlOk "\"hello\"")
    "u" { success := true, extracted_content := "\"hello\"", error_message := "" }
    (Json.str "hello") rfl rfl rfl rfl

/-- C8 (counterexample): when `json.loads` fails, the generic `except`
handler returns `str(e)` — the decoder's own message, e.g.
`"Expecting value: line 1 column 1 (char 0)"` for the content `"not json"` —
never the fixed text `"invalid JSON from extractor"` the claim requires. -/
theorem parse_failure_outcome_cex :
    (extract_product_data
        (fun _ => Except.error "Expecting value: line 1 column 1 (char 0)")
        (crawlOk "not json") "u").error
        = some "Expecting value: line 1 column 1 (char 0)" ∧
    (extract_product_data
        (fun _ => Except.error "Expecting value: line 1 column 1 (char 0)")
        (crawlOk "not json") "u").error
      ≠ some "invalid JSON from extractor" := by
  exact ⟨rfl, by decide⟩

/-- C8 (amended): when the crawl succeeds but the extracted content fails to
parse as JSON with decoder message `msg`, `extract_product_data` returns
`{success: false, error: msg, url}` — the underlying decode message, not a
fixed string. -/
theorem parse_failure_outcome (loads : String → Except String Json)
    (crawl : String → Except String CrawlResult) (url : String) (r : CrawlResult)
    (msg : String) (h1 : crawl url = .ok r) (h2 : r.success = true)
    (h3 : loads r.extracted_content = .error msg) :
    extract_product_data loads crawl url =
      { success := false, data := none, error := some msg, url := some url } := by
  simp [extract_product_data, h1, h2, h3]

/-- Witness for C8 at a concrete decoder failure. -/
theorem parse_failure_outcome_witness :
    extract_product_data
        (fun _ => Except.error "Expecting value: line 1 column 1 (char 0)")
        (crawlOk "not json") "u" =
      { success := false, data := none,
        error := some "Expecting value: line 1 column 1 (char 0)",
        url := some "u" } :=
  parse_failure_outcome
    (fun _ => Except.error "Expecting value: line 1 column 1 (char 0)")
    (crawlOk "not json") "u"
    { success := true, extracted_content := "not json", error_message := "" }
    "Expecting value: line 1 column 1 (char 0)" rfl rfl rfl

/-- C9: a parse that yields the singleton list `[obj]` and a parse that
yields `obj` directly produce identical outcomes: list-vs-object
normalization is transparent. -/
theorem singleton_list_transparent (loads loads' : String → Except String Json)
    (crawl : String → Except String CrawlResult) (url : String) (r : CrawlResult)
    (fs : List (String × Json)) (h1 : crawl url = .ok r) (h2 : r.success = true)
    (h3 : loads r.extracted_content = .ok (Json.arr [Json.obj fs]))
    (h4 : loads' r.extracted_content = .ok (Json.obj fs)) :
    extract_product_data loads crawl url = extract_product_data loads' crawl url := by
  simp [extract_product_data, h1, h2, h3, h4, normalize_and_wrap]

/-- Witness for C9 at a concrete singleton-list parse. -/
theorem singleton_list_transparent_witness :
    extract_product_data
        (fun _ => Except.ok (Json.arr [Json.obj [("product", Json.str "Shirt")]]))
        (crawlOk "c") "u" =
      extract_product_data
        (fun _ => Except.ok (Json.obj [("product", Json.str "Shirt")]))
        (crawlOk "c") "u" :=
  singleton_list_transparent
    (fun _ => Except.ok (Json.arr [Json.obj [("product", Json.str "Shirt")]]))
    (fun _ => Except.ok (Json.obj [("product", Json.str "Shirt")]))
    (crawlOk "c") "u"
    { success := true, extracted_content := "c", error_message := "" }
    [("product", Json.str "Shirt")] rfl rfl rfl rfl

/-- C10: the data of a successful outcome is exactly the parsed object (or
the first element of a parsed list), passed through unchanged for an
*arbitrary* field list `fs`: no validation against `Product` is performed,
nothing is defaulted, unknown keys stay, and an object missing `product`,
`brand` and `price` still yields `success: true`. -/
theorem data_passed_through_unvalidated (loads loads' : String → Except String Json)
    (crawl : String → Except String CrawlResult) (url : String) (r : CrawlResult)
    (fs : List (String × Json)) (rest : List Json)
    (h1 : crawl url = .ok r) (h2 : r.success = true)
    (h3 : loads r.extracted_content = .ok (Json.obj fs))
    (h4 : loads' r.extracted_content = .ok (Json.arr (Json.obj fs :: rest))) :
    extract_product_data loads crawl url =
      { success := true, data := some (Json.obj fs), error := none,
        url := some url } ∧
    extract_product_data loads' crawl url =
      { success := true, data := some (Json.obj fs), error := none,
        url := some url } := by
  constructor <;> simp [extract_product_data, h1, h2, h3, h4, normalize_and_wrap]

/-- Witness for C10 at an object having only an unknown key and none of the
required-semantic fields. -/
theorem data_passed_through_unvalidated_witness :
    extract_product_data
        (fun _ => Except.ok (Json.obj [("unknown_key", Json.str "v")]))
        (crawlOk "c") "u" =
      { success := true, data := some (Json.obj [("unknown_key", Json.str "v")]),
        error := none, url := some "u" } ∧
    extract_product_data
        (fun _ => Except.ok (Json.arr [Json.obj [("unknown_key", Json.str "v")]]))
        (crawlOk "c") "u" =
      { success := true, data := some (Json.obj [("unknown_key", Json.str "v")]),
        error := none, url := some "u" } :=
  data_passed_through_unvalidated
    (fun _ => Except.ok (Json.obj [("unknown_key", Json.str "v")]))
    (fun _ => Except.ok (Json.arr [Json.obj [("unknown_key", Json.str "v")]]))
    (crawlOk "c") "u"
    { success := true, extracted_content := "c", error_message := "" }
    [("unknown_key", Json.str "v")] [] rfl rfl rfl rfl

/-- C1 (counterexample): the empty raw object, from which every field is
absent, does not resolve to an all-defaults record — `product` (like `brand`,
`product_description` and `price`) is declared required with no default, so
validation fails with a missing-field error rather than applying a default. -/
theorem product_required_field_cex :
    Product.model_validate [] = .error "Field required: product" := rfl

/-- C1 (amended): every field of `Product` *other than* the four required
ones (`product`, `brand`, `product_description`, `price`) resolves to its
default when absent: a raw object carrying exactly the four required keys
validates to the record whose other 30 fields are all at their defaults
(`""` for optional strings, `[]` for `image_links`, `false` for every
boolean flag). -/
theorem product_defaults_for_optional_fields (p b d pr : String) :
    Product.model_validate
        [("product", Json.str p), ("brand", Json.str b),
         ("product_description", Json.str d), ("price", Json.str pr)] =
      .ok { product := p, brand := b, product_description := d, price := pr } := rfl

end ProductScraper
